import Mathlib

/-!
# Verification of the AO plugin service adapter (`plugin-ao`)

A shallow embedding of the adapter component of the `plugin-ao` repository:

* `src/utils/format.ts` — the result formatter `formatAOResult` together with the
  fragment of `JSON.stringify(·, null, 2)` it relies on;
* `src/utils/errors.ts` — the error taxonomy (`AOErrorCode`, `AOError`,
  `AOErrorResponse`) and the normalization helper `handleAOError`;
* `src/services/AOService.ts` — the service adapter: lifecycle state,
  `initialize`, `stop`, `ensureInitialized`, and the four operations
  `spawnProcess`, `sendMessage`, `readResult`, `dryRun`, with the external
  client (`@permaweb/aoconnect`) abstracted as an environment of call results;
* the `validate` pre-checks of the four action handlers
  (`spawn-process`, `send-message`, `read-result`, `dry-run`), with their zod
  schemas embedded as decidable predicates on JSON values.

JavaScript features that matter to the behaviour are made explicit: string
truthiness for the `a || b` configuration fallbacks, `Error.prototype.toString`
for `String(error)`, `String.prototype.includes` as character-list infix.
-/

namespace AOPlugin

mutual

/-- JSON values, as produced by `JSON.parse` and consumed by `JSON.stringify`.
Numbers are modelled as integers (every number the adapter handles is one);
object members keep their textual order, as JavaScript objects do. The
arrays and objects are spelled as the mutual types `JsonArr` / `JsonObj`. -/
inductive Json where
  | null : Json
  | bool : Bool → Json
  | num : Int → Json
  | str : String → Json
  | arr : JsonArr → Json
  | obj : JsonObj → Json

/-- A JSON array: a list of `Json` values. -/
inductive JsonArr where
  | nil : JsonArr
  | cons : Json → JsonArr → JsonArr

/-- A JSON object: an ordered list of key/value members. -/
inductive JsonObj where
  | nil : JsonObj
  | cons : String → Json → JsonObj → JsonObj

end

/-- Number of elements of a JSON array. -/
def JsonArr.length : JsonArr → Nat
  | .nil => 0
  | .cons _ xs => 1 + xs.length

/-- Every element of a JSON array satisfies the predicate `p`. -/
def JsonArr.all (p : Json → Bool) : JsonArr → Bool
  | .nil => true
  | .cons x xs => p x && xs.all p

/-- First member of a JSON object with the given key, if any
(property lookup on a parsed JSON object). -/
def JsonObj.find (k : String) : JsonObj → Option Json
  | .nil => none
  | .cons k2 v rest => if k2 = k then some v else rest.find k

/-- Escape one character as inside a JSON string literal
(the escapes `JSON.stringify` emits for the characters the adapter handles). -/
def jsonEscapeChar (c : Char) : String :=
  if c = '"' then "\\\""
  else if c = '\\' then "\\\\"
  else if c = '\n' then "\\n"
  else if c = '\r' then "\\r"
  else if c = '\t' then "\\t"
  else String.singleton c

/-- Render a string as a JSON string literal, double-quoted and escaped. -/
def quoteJson (s : String) : String :=
  "\"" ++ String.join (s.toList.map jsonEscapeChar) ++ "\""

mutual

/-- `JSON.stringify(v, null, 2)` restricted to the `Json` values above:
`ind` is the indentation prefix of the value's closing bracket, and nested
members are indented two spaces further, exactly as the JavaScript builtin
does with gap `2`. -/
def stringify2 (ind : String) : Json → String
  | .null => "null"
  | .bool true => "true"
  | .bool false => "false"
  | .num n => toString n
  | .str s => quoteJson s
  | .arr .nil => "[]"
  | .arr a =>
      "[\n" ++ stringifyElems (ind ++ "  ") a ++ "\n" ++ ind ++ "]"
  | .obj .nil => "\x7b\x7d"
  | .obj ms =>
      "\x7b\n" ++ stringifyMembers (ind ++ "  ") ms ++ "\n" ++ ind ++ "\x7d"

/-- Array elements of `stringify2`, one per line, separated by `\",\\n\"`. -/
def stringifyElems (ind : String) : JsonArr → String
  | .nil => ""
  | .cons x xs =>
      ind ++ stringify2 ind x ++
        (match xs with | .nil => "" | _ => ",\n") ++ stringifyElems ind xs

/-- Object members of `stringify2`, `\"key\": value` per line. -/
def stringifyMembers (ind : String) : JsonObj → String
  | .nil => ""
  | .cons k v ms =>
      ind ++ quoteJson k ++ ": " ++ stringify2 ind v ++
        (match ms with | .nil => "" | _ => ",\n") ++ stringifyMembers ind ms

end

/-- JavaScript truthiness of a JSON value (`null`, `false`, `0`, `\"\"` are
falsy; arrays and objects are always truthy). -/
def jsTruthy : Json → Bool
  | .null => false
  | .bool b => b
  | .num n => n != 0
  | .str s => s != ""
  | .arr _ => true
  | .obj _ => true

/-- The `AOResult` record returned by `readResult` / `dryRun`
(`src/types.ts`): `Output`, `Messages`, `Spawns` are opaque pass-through
values; `Error` is optional (`none` models an absent / `undefined` field). -/
structure AOResult where
  Output : Json
  Messages : List Json
  Spawns : List Json
  Error : Option Json := none

/-- Truthiness of the optional `Error` field (`result.Error ? … : 'None'`):
an absent field is falsy. -/
def jsTruthyOpt : Option Json → Bool
  | none => false
  | some v => jsTruthy v

/-- `formatAOResult` of `src/utils/format.ts`: four components joined by a
newline — pretty-printed `Output`, the `Messages` count, the `Spawns` count,
and the pretty-printed `Error` or the literal `None`. -/
def formatAOResult (result : AOResult) : String :=
  let lines : List String := [
    "Output: " ++ stringify2 "" result.Output,
    "Messages: " ++ toString result.Messages.length ++ " message(s)",
    "Spawns: " ++ toString result.Spawns.length ++ " spawn(s)",
    "Error: " ++ (if jsTruthyOpt result.Error then
        stringify2 "" (result.Error.getD Json.null) else "None")]
  String.intercalate "\n" lines

/-! ## Error taxonomy and normalization (`src/utils/errors.ts`) -/

/-- JavaScript `String.prototype.includes`: the needle occurs as a contiguous
substring of the haystack. -/
def includes (s sub : String) : Bool :=
  decide (sub.toList <:+: s.toList)

/-- The `AOErrorCode` enumeration of `src/utils/errors.ts`. -/
inductive AOErrorCode where
  | VALIDATION_ERROR
  | NETWORK_ERROR
  | PROTOCOL_ERROR
  | SECURITY_ERROR
  | INSUFFICIENT_BALANCE
  | TRANSACTION_FAILED
  | UNAUTHORIZED
  | SERVICE_NOT_INITIALIZED
  | CONFIGURATION_ERROR
deriving Repr, DecidableEq

/-- The `AOErrorResponse` shape: code, message, optional details (the
`originalError` string the helper stores there, or whatever opaque detail an
`AOError` carried, modelled by its string form), optional suggestions. -/
structure AOErrorResponse where
  code : AOErrorCode
  message : String
  details : Option String := none
  suggestions : Option (List String) := none
deriving Repr, DecidableEq

/-- A JavaScript value that can be thrown: an `AOError` (carrying code,
message, details, suggestions), any other `Error` instance (carrying its
`name` and `message`), or a non-`Error` value represented by its `String(·)`
form. -/
inductive ThrownValue where
  | aoError (code : AOErrorCode) (message : String)
      (details : Option String) (suggestions : Option (List String))
  | jsError (name message : String)
  | other (stringForm : String)
deriving Repr, DecidableEq

/-- `Error.prototype.toString`: `name`, `message`, or `name ++ \": \" ++
message` when both are nonempty. -/
def errorToString (name message : String) : String :=
  if message = "" then name
  else if name = "" then message
  else name ++ ": " ++ message

/-- JavaScript `String(v)` on a thrown value. An `AOError` sets
`this.name = 'AOError'`. -/
def stringOfThrown : ThrownValue → String
  | .aoError _ message _ _ => errorToString "AOError" message
  | .jsError name message => errorToString name message
  | .other s => s

/-- `AOError.prototype.toResponse`: package code, message, details and
suggestions unchanged. -/
def toResponse (code : AOErrorCode) (message : String)
    (details : Option String) (suggestions : Option (List String)) :
    AOErrorResponse :=
  { code := code, message := message, details := details,
    suggestions := suggestions }

/-- The generic fallback response built at the end of `handleAOError`. -/
def genericProtocolError (originalError : String) : AOErrorResponse :=
  toResponse .PROTOCOL_ERROR "An unexpected error occurred"
    (some originalError)
    (some ["Please try again", "Contact support if the issue persists"])

/-- `handleAOError` of `src/utils/errors.ts`: an `AOError` passes through via
`toResponse`; any other `Error` instance is classified by substring tests on
its message (insufficient funds, then network/connection, then reverted);
everything else falls to the generic `PROTOCOL_ERROR` response whose
`originalError` detail is `String(error)`. -/
def handleAOError : ThrownValue → AOErrorResponse
  | .aoError code message details suggestions =>
      toResponse code message details suggestions
  | .jsError name message =>
      if includes message "insufficient funds" then
        toResponse .INSUFFICIENT_BALANCE
          "Insufficient balance to complete transaction" (some message)
          (some ["Check your wallet balance",
                 "Ensure you have enough AR for fees"])
      else if includes message "network" || includes message "connection" then
        toResponse .NETWORK_ERROR "Network connection error" (some message)
          (some ["Check your internet connection",
                 "Verify gateway is accessible"])
      else if includes message "reverted" then
        toResponse .TRANSACTION_FAILED "Transaction reverted on chain"
          (some message)
          (some ["Check transaction parameters",
                 "Ensure contract state allows this operation"])
      else
        genericProtocolError (stringOfThrown (.jsError name message))
  | .other s => genericProtocolError s

/-! ## Service adapter (`src/services/AOService.ts`) -/

/-- The opaque signer object `createSigner(wallet)` derives from wallet
material (external primitive, pass-through). -/
structure Signer where
  wallet : String
deriving Repr, DecidableEq

/-- The instance-level `AOServiceConfig` of `src/types.ts`. `none` models an
absent field; `some \"\"` an explicitly empty (hence JS-falsy) string. -/
structure AOServiceConfig where
  wallet : Option String := none
  gatewayUrl : Option String := none
  graphqlUrl : Option String := none
  muUrl : Option String := none
  cuUrl : Option String := none
  mode : Option String := none
  defaultTimeout : Option Int := none
deriving Repr, DecidableEq

/-- The process-wide configuration snapshot (`global.__aoConfig`) written once
by the plugin's `init` from environment variables (`src/plugin.ts`). -/
structure GlobalAOConfig where
  AO_API_KEY : Option String := none
  AO_GATEWAY_URL : Option String := none
  AO_GRAPHQL_URL : Option String := none
  AO_MU_URL : Option String := none
  AO_CU_URL : Option String := none
  AO_MODE : Option String := none
  AO_DEFAULT_TIMEOUT : Option Int := none
deriving Repr, DecidableEq

/-- JS truthiness of an optional string (`undefined` and `\"\"` are falsy). -/
def jsTruthyStr : Option String → Bool
  | none => false
  | some s => s != ""

/-- JavaScript `a || b` on optional strings. -/
def jsOrStr (a b : Option String) : Option String :=
  if jsTruthyStr a then a else b

/-- The `connectArgs` object assembled by `AOService.initialize`: exactly the
five keys the source may set (`MODE`, `GATEWAY_URL`, `GRAPHQL_URL`, `MU_URL`,
`CU_URL`); a key is in the object iff its field is `some`. -/
structure ConnectArgs where
  MODE : Option String := none
  GATEWAY_URL : Option String := none
  GRAPHQL_URL : Option String := none
  MU_URL : Option String := none
  CU_URL : Option String := none
deriving Repr, DecidableEq

/-- `Object.keys(connectArgs).length > 0` is false, i.e. no key was set. -/
def ConnectArgs.isEmpty (a : ConnectArgs) : Bool :=
  a.MODE.isNone && a.GATEWAY_URL.isNone && a.GRAPHQL_URL.isNone &&
    a.MU_URL.isNone && a.CU_URL.isNone

/-- One field of the `connectArgs` assembly:
`if (inst || glob) args.KEY = inst || glob` — the key is set iff the JS
disjunction is truthy, and to its value. -/
def resolveField (inst glob : Option String) : Option String :=
  if jsTruthyStr (jsOrStr inst glob) then jsOrStr inst glob else none

/-- The whole `connectArgs` assembly of `AOService.initialize` (lines 49–65):
per-field instance-over-global precedence for the five forwarded fields.
`g = none` models an absent global snapshot (`config?.FIELD` is undefined). -/
def resolveConnectArgs (cfg : AOServiceConfig) (g : Option GlobalAOConfig) :
    ConnectArgs :=
  { MODE := resolveField cfg.mode (g.bind fun c => c.AO_MODE)
    GATEWAY_URL := resolveField cfg.gatewayUrl (g.bind fun c => c.AO_GATEWAY_URL)
    GRAPHQL_URL := resolveField cfg.graphqlUrl (g.bind fun c => c.AO_GRAPHQL_URL)
    MU_URL := resolveField cfg.muUrl (g.bind fun c => c.AO_MU_URL)
    CU_URL := resolveField cfg.cuUrl (g.bind fun c => c.AO_CU_URL) }

/-- The adapter's mutable fields: `signer`, `initialized`, and the
instance-level `config` set at construction. -/
structure AOServiceState where
  signer : Option Signer := none
  initialized : Bool := false
  config : AOServiceConfig := {}
deriving Repr, DecidableEq

/-- A `{name, value}` tag pair, passed through verbatim. -/
structure Tag where
  name : String
  value : String
deriving Repr, DecidableEq

/-- Argument record of the external `spawn` primitive. -/
structure SpawnArgs where
  module : String
  scheduler : String
  signer : Option Signer
  tags : Option (List Tag)
  data : Option String
deriving Repr, DecidableEq

/-- Argument record of the external `message` primitive. -/
structure MessageArgs where
  process : String
  data : String
  tags : Option (List Tag)
  anchor : Option String
  signer : Option Signer
deriving Repr, DecidableEq

/-- Argument record of the external `result` primitive. -/
structure ResultArgs where
  process : String
  message : String
deriving Repr, DecidableEq

/-- Argument record of the external `dryrun` primitive (no signer). -/
structure DryrunArgs where
  process : String
  data : String
  tags : Option (List Tag)
  anchor : Option String
deriving Repr, DecidableEq

/-- A call made to the external client library, with its arguments. -/
inductive ExternalCall where
  | connect (args : ConnectArgs)
  | createSigner (wallet : String)
  | spawn (args : SpawnArgs)
  | message (args : MessageArgs)
  | result (args : ResultArgs)
  | dryrun (args : DryrunArgs)
deriving Repr, DecidableEq

/-- The external client's behaviour, abstracted: for each primitive, what it
returns or throws when invoked with given arguments. `AOResult` results are
wrapped in a type with decidable equality not needed, so plain functions. -/
structure ExternalEnv where
  createSignerResult : String → Except ThrownValue Signer
  connectResult : ConnectArgs → Except ThrownValue Unit
  spawnResult : SpawnArgs → Except ThrownValue String
  messageResult : MessageArgs → Except ThrownValue String
  resultResult : ResultArgs → Except ThrownValue AOResult
  dryrunResult : DryrunArgs → Except ThrownValue AOResult

/-- `AOService.initialize(runtime)`: derive the signer when wallet material is
present, assemble `connectArgs`, call `connect` only when at least one key was
set, then flip `initialized`. The `catch` block logs and rethrows the raw
error, so a failure propagates unchanged while the mutations already made
(signer assignment) persist. Returns (outcome, new state, external calls in
order). -/
def initializeService (env : ExternalEnv) (g : Option GlobalAOConfig)
    (s : AOServiceState) :
    Except ThrownValue Unit × AOServiceState × List ExternalCall :=
  match s.config.wallet with
  | some w =>
    match env.createSignerResult w with
    | .error e => (.error e, s, [.createSigner w])
    | .ok sg =>
      if (resolveConnectArgs s.config g).isEmpty then
        (.ok (), { s with signer := some sg, initialized := true },
          [.createSigner w])
      else
        match env.connectResult (resolveConnectArgs s.config g) with
        | .error e =>
            (.error e, { s with signer := some sg },
              [.createSigner w, .connect (resolveConnectArgs s.config g)])
        | .ok _ =>
            (.ok (), { s with signer := some sg, initialized := true },
              [.createSigner w, .connect (resolveConnectArgs s.config g)])
  | none =>
    if (resolveConnectArgs s.config g).isEmpty then
      (.ok (), { s with initialized := true }, [])
    else
      match env.connectResult (resolveConnectArgs s.config g) with
      | .error e => (.error e, s, [.connect (resolveConnectArgs s.config g)])
      | .ok _ =>
          (.ok (), { s with initialized := true },
            [.connect (resolveConnectArgs s.config g)])

/-- `AOService.stop()`: clear the `initialized` flag and the signer. -/
def stop (s : AOServiceState) : AOServiceState :=
  { s with initialized := false, signer := none }

/-- `AOService.getSigner()`. -/
def getSigner (s : AOServiceState) : Option Signer :=
  s.signer

/-- `AOService.isInitialized()`. -/
def isInitialized (s : AOServiceState) : Bool :=
  s.initialized

/-- The plain `Error` thrown by `ensureInitialized` — note it is a bare
`Error`, not an `AOError`. -/
def notInitializedError : ThrownValue :=
  .jsError "Error" "AOService not initialized. Call initialize() first."

/-- `AOService.ensureInitialized()`: throw when the flag is not set. -/
def ensureInitialized (s : AOServiceState) : Except ThrownValue Unit :=
  if !s.initialized then .error notInitializedError else .ok ()

/-- `AOService.spawnProcess`: guard, then delegate to the external `spawn`
primitive with the signer attached; the `catch` rethrows the raw error. -/
def spawnProcess (env : ExternalEnv) (s : AOServiceState)
    (module scheduler : String) (tags : Option (List Tag))
    (data : Option String) :
    Except ThrownValue String × List ExternalCall :=
  match ensureInitialized s with
  | .error e => (.error e, [])
  | .ok _ =>
    let args : SpawnArgs :=
      { module := module, scheduler := scheduler, signer := s.signer,
        tags := tags, data := data }
    (env.spawnResult args, [.spawn args])

/-- `AOService.sendMessage`: guard, then delegate to the external `message`
primitive with the signer attached; the `catch` rethrows the raw error. -/
def sendMessage (env : ExternalEnv) (s : AOServiceState)
    (process data : String) (tags : Option (List Tag))
    (anchor : Option String) :
    Except ThrownValue String × List ExternalCall :=
  match ensureInitialized s with
  | .error e => (.error e, [])
  | .ok _ =>
    let args : MessageArgs :=
      { process := process, data := data, tags := tags, anchor := anchor,
        signer := s.signer }
    (env.messageResult args, [.message args])

/-- `AOService.readResult`: guard, then delegate to the external `result`
primitive (no signer — read operation). -/
def readResult (env : ExternalEnv) (s : AOServiceState)
    (process messageId : String) :
    Except ThrownValue AOResult × List ExternalCall :=
  match ensureInitialized s with
  | .error e => (.error e, [])
  | .ok _ =>
    let args : ResultArgs := { process := process, message := messageId }
    (env.resultResult args, [.result args])

/-- `AOService.dryRun`: guard, then delegate to the external `dryrun`
primitive (no signer — read operation). -/
def dryRun (env : ExternalEnv) (s : AOServiceState)
    (process data : String) (tags : Option (List Tag))
    (anchor : Option String) :
    Except ThrownValue AOResult × List ExternalCall :=
  match ensureInitialized s with
  | .error e => (.error e, [])
  | .ok _ =>
    let args : DryrunArgs :=
      { process := process, data := data, tags := tags, anchor := anchor }
    (env.dryrunResult args, [.dryrun args])

/-! ## Action handler pre-checks (`validate` of the four actions) -/

/-- `z.string().min(1)` on an optional object member: present and a string of
length at least one. -/
def isNonEmptyStringJson : Option Json → Bool
  | some (.str s) => decide (1 ≤ s.length)
  | _ => false

/-- `z.string().optional()`: absent, or present and a string (`null` fails). -/
def isOptionalString : Option Json → Bool
  | none => true
  | some (.str _) => true
  | some _ => false

/-- `z.object({name: z.string(), value: z.string()})` on one tag. -/
def isTagJson : Json → Bool
  | .obj ms =>
      (match ms.find "name" with | some (.str _) => true | _ => false) &&
      (match ms.find "value" with | some (.str _) => true | _ => false)
  | _ => false

/-- `z.array(z.object({name: z.string(), value: z.string()})).optional()`. -/
def isOptionalTags : Option Json → Bool
  | none => true
  | some (.arr xs) => xs.all isTagJson
  | some _ => false

/-- The `sendMessageSchema` of `src/actions/send-message.action.ts`. -/
def sendMessageSchemaValid : Json → Bool
  | .obj ms =>
      isNonEmptyStringJson (ms.find "process") &&
      isNonEmptyStringJson (ms.find "data") &&
      isOptionalTags (ms.find "tags") &&
      isOptionalString (ms.find "anchor")
  | _ => false

/-- The `spawnProcessSchema` of the spawn-process action. -/
def spawnProcessSchemaValid : Json → Bool
  | .obj ms =>
      isNonEmptyStringJson (ms.find "module") &&
      isNonEmptyStringJson (ms.find "scheduler") &&
      isOptionalString (ms.find "data") &&
      isOptionalTags (ms.find "tags")
  | _ => false

/-- The `readResultSchema` of `src/actions/read-result.action.ts`. -/
def readResultSchemaValid : Json → Bool
  | .obj ms =>
      isNonEmptyStringJson (ms.find "process") &&
      isNonEmptyStringJson (ms.find "messageId")
  | _ => false

/-- The `dryRunSchema` of the dry-run action. -/
def dryRunSchemaValid : Json → Bool
  | .obj ms =>
      isNonEmptyStringJson (ms.find "process") &&
      isNonEmptyStringJson (ms.find "data") &&
      isOptionalTags (ms.find "tags") &&
      isOptionalString (ms.find "anchor")
  | _ => false

/-- An operation of the Service Adapter, for recording what a handler's
pre-check invokes. -/
inductive AdapterOp where
  | spawnProcess
  | sendMessage
  | readResult
  | dryRun
deriving Repr, DecidableEq

/-- The shared shape of the four actions' `validate` pre-checks:
`runtime.getService('ao')` yields `service` (`none` when unavailable); when it
is missing or not initialized, return `false`; then the parsed JSON content
(`none` when `JSON.parse` threw); then the zod schema. The second component
records the adapter operations invoked — the source invokes none. -/
def validateAction (schemaValid : Json → Bool)
    (service : Option AOServiceState) (content : Option Json) :
    Bool × List AdapterOp :=
  match service with
  | none => (false, [])
  | some s =>
    if !isInitialized s then (false, [])
    else
      match content with
      | none => (false, [])
      | some j => (schemaValid j, [])

/-- `validate` of `SEND_AO_MESSAGE`. -/
def sendMessageValidate : Option AOServiceState → Option Json →
    Bool × List AdapterOp :=
  validateAction sendMessageSchemaValid

/-- `validate` of `SPAWN_AO_PROCESS`. -/
def spawnProcessValidate : Option AOServiceState → Option Json →
    Bool × List AdapterOp :=
  validateAction spawnProcessSchemaValid

/-- `validate` of `READ_AO_RESULT`. -/
def readResultValidate : Option AOServiceState → Option Json →
    Bool × List AdapterOp :=
  validateAction readResultSchemaValid

/-- `validate` of `DRY_RUN_AO`. -/
def dryRunValidate : Option AOServiceState → Option Json →
    Bool × List AdapterOp :=
  validateAction dryRunSchemaValid

/-! ## Auxiliary definitions for the statements -/

/-- The thrown value is an `AOError`, i.e. one of the taxonomy kinds
(`error instanceof AOError`). -/
def isAOError : ThrownValue → Bool
  | .aoError _ _ _ _ => true
  | _ => false

/-- Modelled from the spec (§4.1), for comparison with the code's
`resolveField`: "for every field, prefer the instance value if present and
non-empty, else fall back to the process-wide value, else leave unset". -/
def specPreferInstanceField (inst glob : Option String) : Option String :=
  if jsTruthyStr inst then inst
  else if jsTruthyStr glob then glob
  else none

/-- The condition `!service || !service.isInitialized()` of the handlers'
pre-checks: the service is unavailable or not initialized. -/
def serviceUnavailable : Option AOServiceState → Bool
  | none => true
  | some s => !isInitialized s

/-- A benign external environment in which every primitive succeeds. -/
def pureEnv : ExternalEnv :=
  { createSignerResult := fun w => .ok ⟨w⟩
    connectResult := fun _ => .ok ()
    spawnResult := fun _ => .ok "PROCESS_ID_789"
    messageResult := fun _ => .ok "MESSAGE_ID_012"
    resultResult := fun _ => .ok ⟨.null, [], [], none⟩
    dryrunResult := fun _ => .ok ⟨.null, [], [], none⟩ }

/-- An external environment whose `createSigner` throws. -/
def failSignerEnv : ExternalEnv :=
  { pureEnv with
    createSignerResult := fun _ => .error (.jsError "Error" "bad wallet") }

/-- A freshly constructed adapter carrying wallet material. -/
def walletState : AOServiceState :=
  { config := { wallet := some "WALLET_JWK" } }

/-- An adapter in the `Initialized` lifecycle state. -/
def initState : AOServiceState :=
  { signer := some ⟨"WALLET_JWK"⟩, initialized := true }

/-- A schema-valid send-message payload. -/
def validSendPayload : Json :=
  .obj (.cons "process" (.str "PROCESS_ID_789")
    (.cons "data" (.str "Hello AO!") .nil))

/-- A send-message payload whose `process` field is missing. -/
def missingProcessPayload : Json :=
  .obj (.cons "data" (.str "Hello AO!") .nil)

/-! ## Helper lemmas -/

/-- Every string `includes` itself. -/
theorem includes_self (s : String) : includes s s = true := by
  simp [includes, List.infix_refl]

/-- Every string `includes` the empty string. -/
theorem includes_empty (s : String) : includes s "" = true := by
  simp [includes]

/-- `String(error)` of an `Error` instance contains the error's message. -/
theorem includes_errorToString (name message : String) :
    includes (errorToString name message) message = true := by
  unfold errorToString
  by_cases hm : message = ""
  · subst hm
    simp [includes_empty]
  · by_cases hn : name = ""
    · simp [hm, hn, includes_self]
    · simp [hm, hn, includes]
      refine List.IsSuffix.isInfix ?_
      refine ⟨(name ++ ": ").data, ?_⟩
      have h : (name ++ ": " ++ message).data = (name ++ ": ").data ++ message.data := by
        simp [String.data_append]
      simp [String.toList, h]

/-! ## Claims -/

/-- C7: after `stop()`, from any prior state, `isInitialized()` returns false
and `getSigner()` returns undefined; `stop()` is total (always succeeds) and
idempotent. -/
theorem stop_clears_and_idempotent (s : AOServiceState) :
    isInitialized (stop s) = false ∧ getSigner (stop s) = none ∧
      stop (stop s) = stop s :=
  ⟨rfl, rfl, rfl⟩

/-- C6: `formatAOResult` is a pure function producing exactly the four
newline-joined components in fixed order (pretty `Output`, `Messages` count,
`Spawns` count, pretty `Error` or the literal `None`); on the record
`Output = obj status success, Messages = [], Spawns = [], Error = null` it
returns exactly the string of the claim. -/
theorem formatAOResult_shape_and_example :
    (∀ r : AOResult,
      formatAOResult r =
        String.intercalate "\n"
          ["Output: " ++ stringify2 "" r.Output,
           "Messages: " ++ toString r.Messages.length ++ " message(s)",
           "Spawns: " ++ toString r.Spawns.length ++ " spawn(s)",
           "Error: " ++ (if jsTruthyOpt r.Error then
               stringify2 "" (r.Error.getD Json.null) else "None")]) ∧
    formatAOResult
        { Output := .obj (.cons "status" (.str "success") .nil),
          Messages := [], Spawns := [], Error := some .null } =
      "Output: \x7b\n  \"status\": \"success\"\n\x7d\nMessages: 0 message(s)\nSpawns: 0 spawn(s)\nError: None" :=
  ⟨fun _ => rfl, rfl⟩

/-- C10: a thrown value that is not an `Error` instance is mapped to the
generic `PROTOCOL_ERROR` response no matter what its textual content is —
even when its string form contains `network`, `connection`, `insufficient
funds` or `reverted` — and its `String(·)` form is recorded in the details. -/
theorem handleAOError_non_error_generic (s : String) :
    handleAOError (.other s) =
      { code := .PROTOCOL_ERROR, message := "An unexpected error occurred",
        details := some s,
        suggestions := some ["Please try again",
                             "Contact support if the issue persists"] } :=
  rfl

/-- C2 (counterexample): the §4.2 guard does not raise one of the taxonomy
kinds — its error is a plain `Error`, not an `AOError` — and `handleAOError`
does not return it unchanged: it reclassifies it to the generic
`PROTOCOL_ERROR` response, with a different message. -/
theorem guard_error_not_passthrough :
    isAOError notInitializedError = false ∧
    (handleAOError notInitializedError).code = AOErrorCode.PROTOCOL_ERROR ∧
    (handleAOError notInitializedError).message =
      "An unexpected error occurred" ∧
    (handleAOError notInitializedError).details =
      some "Error: AOService not initialized. Call initialize() first." :=
  ⟨rfl, rfl, rfl, rfl⟩

/-- C2 (amended): every failure value that is an `AOError` is returned by
`handleAOError` unchanged — same code, message, details and suggestions —
bypassing the substring classification; the §4.2 guard, however, raises a
plain `Error`, not an `AOError`, so it does not take this path. -/
theorem handleAOError_aoError_passthrough (code : AOErrorCode)
    (message : String) (details : Option String)
    (suggestions : Option (List String)) :
    handleAOError (.aoError code message details suggestions) =
      { code := code, message := message, details := details,
        suggestions := suggestions } :=
  rfl

/-- C4: on an `Error` instance (not an `AOError` — those bypass
classification), `handleAOError` classifies by first substring match in fixed
order: `insufficient funds` → `INSUFFICIENT_BALANCE`, else
`network`/`connection` → `NETWORK_ERROR`, else `reverted` →
`TRANSACTION_FAILED`, else the generic `PROTOCOL_ERROR` with generic
suggestions; and the details of every outcome contain the original message. -/
theorem handleAOError_first_match_classification (name message : String) :
    (includes message "insufficient funds" = true →
      handleAOError (.jsError name message) =
        toResponse .INSUFFICIENT_BALANCE
          "Insufficient balance to complete transaction" (some message)
          (some ["Check your wallet balance",
                 "Ensure you have enough AR for fees"])) ∧
    (includes message "insufficient funds" = false →
      (includes message "network" || includes message "connection") = true →
      handleAOError (.jsError name message) =
        toResponse .NETWORK_ERROR "Network connection error" (some message)
          (some ["Check your internet connection",
                 "Verify gateway is accessible"])) ∧
    (includes message "insufficient funds" = false →
      (includes message "network" || includes message "connection") = false →
      includes message "reverted" = true →
      handleAOError (.jsError name message) =
        toResponse .TRANSACTION_FAILED "Transaction reverted on chain"
          (some message)
          (some ["Check transaction parameters",
                 "Ensure contract state allows this operation"])) ∧
    (includes message "insufficient funds" = false →
      (includes message "network" || includes message "connection") = false →
      includes message "reverted" = false →
      handleAOError (.jsError name message) =
        genericProtocolError (errorToString name message)) ∧
    (∃ d, (handleAOError (.jsError name message)).details = some d ∧
      includes d message = true) := by
  refine ⟨?_, ?_, ?_, ?_, ?_⟩
  · intro h1
    simp [handleAOError, h1]
  · intro h1 h2
    simp [handleAOError, h1, h2]
  · intro h1 h2 h3
    simp [handleAOError, h1, h2, h3]
  · intro h1 h2 h3
    simp [handleAOError, h1, h2, h3, stringOfThrown]
  · by_cases h1 : includes message "insufficient funds"
    · exact ⟨message, by simp [handleAOError, h1, toResponse],
        includes_self message⟩
    · by_cases h2 :
        (includes message "network" || includes message "connection") = true
      · exact ⟨message, by simp [handleAOError, h1, h2, toResponse],
          includes_self message⟩
      · by_cases h3 : includes message "reverted"
        · refine ⟨message, ?_, includes_self message⟩
          simp only [Bool.or_eq_true, not_or] at h2
          simp [handleAOError, h1, h2.1, h2.2, h3, toResponse]
        · refine ⟨errorToString name message, ?_,
            includes_errorToString name message⟩
          simp only [Bool.or_eq_true, not_or] at h2
          simp [handleAOError, h1, h2.1, h2.2, h3, stringOfThrown,
            genericProtocolError, toResponse]

/-- C4 (witness): a concrete run of the classification — the message
`connection refused` is not an `insufficient funds` message, matches the
`connection` test, and is mapped to `NETWORK_ERROR` with the original message
in the details. -/
theorem handleAOError_first_match_classification_witness :
    handleAOError (.jsError "Error" "connection refused") =
      toResponse .NETWORK_ERROR "Network connection error"
        (some "connection refused")
        (some ["Check your internet connection",
               "Verify gateway is accessible"]) :=
  (handleAOError_first_match_classification "Error" "connection refused").2.1
    (by decide) (by decide)

/-- C1 (counterexample): invoking `spawnProcess` on an uninitialized adapter
does throw without touching the external client, but the thrown value is the
plain not-initialized `Error`, not an error of the `ServiceNotInitialized`
taxonomy kind — so the claim's description of the failure is false at this
input. -/
theorem uninitialized_spawn_error_not_taxonomy :
    (spawnProcess pureEnv {} "MODULE_ID_123" "SCHEDULER_ID_456" none none) =
      (.error notInitializedError, []) ∧
    isAOError notInitializedError = false :=
  ⟨rfl, rfl⟩

/-- C1 (amended): every operation invoked while the lifecycle flag is not
`Initialized` fails immediately with the plain not-initialized `Error`
(`AOService not initialized. Call initialize() first.` — a bare `Error`, not
an `AOError` of the `ServiceNotInitialized` kind), and no external client
primitive (`spawn`, `message`, `result`, `dryrun`) is called. -/
theorem operations_gated_when_uninitialized (env : ExternalEnv)
    (s : AOServiceState) (h : isInitialized s = false)
    (module scheduler process data messageId : String)
    (tags : Option (List Tag)) (anchor dataOpt : Option String) :
    spawnProcess env s module scheduler tags dataOpt =
      (.error notInitializedError, []) ∧
    sendMessage env s process data tags anchor =
      (.error notInitializedError, []) ∧
    readResult env s process messageId = (.error notInitializedError, []) ∧
    dryRun env s process data tags anchor =
      (.error notInitializedError, []) ∧
    isAOError notInitializedError = false := by
  unfold isInitialized at h
  refine ⟨?_, ?_, ?_, ?_, rfl⟩ <;>
    simp [spawnProcess, sendMessage, readResult, dryRun, ensureInitialized, h]

/-- C1 (witness): the amended theorem applied to a concrete uninitialized
adapter and concrete inputs. -/
theorem operations_gated_when_uninitialized_witness :
    sendMessage pureEnv {} "PROCESS_ID_789" "Hello AO!" none none =
      (.error notInitializedError, []) :=
  (operations_gated_when_uninitialized pureEnv {} rfl "MODULE_ID_123"
    "SCHEDULER_ID_456" "PROCESS_ID_789" "Hello AO!" "MESSAGE_ID_012" none
    none none).2.1

/-- C5: when `initialize()` fails — the signer derivation or the `connect`
call throws — the lifecycle flag that was `Uninitialized` stays so
(`isInitialized()` is false on the post state), and the raised error
propagates to the caller unmodified: it is exactly the error of the failing
external primitive. -/
theorem initialization_failure_leaves_uninitialized (env : ExternalEnv)
    (g : Option GlobalAOConfig) (s : AOServiceState)
    (h : isInitialized s = false) (e : ThrownValue)
    (hfail : (initializeService env g s).1 = .error e) :
    isInitialized (initializeService env g s).2.1 = false ∧
    ((∃ w, s.config.wallet = some w ∧ env.createSignerResult w = .error e) ∨
      env.connectResult (resolveConnectArgs s.config g) = .error e) := by
  unfold isInitialized at h ⊢
  unfold initializeService at hfail ⊢
  rcases hw : s.config.wallet with _ | w
  · by_cases hargs : (resolveConnectArgs s.config g).isEmpty = true
    · simp [hw, hargs] at hfail
    · rcases hc : env.connectResult (resolveConnectArgs s.config g)
        with ce | cu
      · simp [hw, hargs, hc] at hfail ⊢
        exact ⟨h, hfail⟩
      · simp [hw, hargs, hc] at hfail
  · rcases hcs : env.createSignerResult w with ce | sg
    · simp [hw, hcs] at hfail ⊢
      exact ⟨h, Or.inl hfail⟩
    · by_cases hargs : (resolveConnectArgs s.config g).isEmpty = true
      · simp [hw, hcs, hargs] at hfail
      · rcases hc : env.connectResult (resolveConnectArgs s.config g)
          with ce | cu
        · simp [hw, hcs, hargs, hc] at hfail ⊢
          exact ⟨h, hfail⟩
        · simp [hw, hcs, hargs, hc] at hfail

/-- C5 (witness): the theorem applied to a concrete failing environment — a
wallet-carrying adapter whose `createSigner` throws stays uninitialized and
surfaces that very error. -/
theorem initialization_failure_witness :
    isInitialized (initializeService failSignerEnv none walletState).2.1 =
      false :=
  (initialization_failure_leaves_uninitialized failSignerEnv none walletState
    rfl (.jsError "Error" "bad wallet") rfl).1

/-- The code's per-field resolution agrees with the spec's stated rule. -/
theorem resolveField_eq_spec (inst glob : Option String) :
    resolveField inst glob = specPreferInstanceField inst glob := by
  unfold resolveField specPreferInstanceField jsOrStr
  by_cases hi : jsTruthyStr inst = true
  · simp [hi]
  · simp [hi]

/-- C3 (counterexample): an adapter whose instance configuration carries
`defaultTimeout = 5000` (present and non-empty), initialized against a
process-wide snapshot carrying an API key and `AO_DEFAULT_TIMEOUT = 30000`,
completes initialization without a single external client call — so neither
the default timeout nor the API key is ever part of a connection profile
passed to the external client, contradicting the claim for those two
fields. -/
theorem timeout_and_api_key_never_forwarded :
    (initializeService pureEnv
        (some { AO_API_KEY := some "secret",
                AO_DEFAULT_TIMEOUT := some 30000 })
        { config := { defaultTimeout := some 5000 } }).2.2 = [] ∧
    (initializeService pureEnv
        (some { AO_API_KEY := some "secret",
                AO_DEFAULT_TIMEOUT := some 30000 })
        { config := { defaultTimeout := some 5000 } }).1 = .ok () :=
  ⟨rfl, rfl⟩

/-- C3 (amended): for each of the five fields the adapter actually forwards
(mode, gateway URL, GraphQL URL, message-unit URL, compute-unit URL),
independently, the effective connection profile takes the instance value when
it is present and non-empty, else the process-wide value when that is present
and non-empty, else leaves the field unset; the API key and the default
timeout are never part of the connection profile at all — changing them (at
either level) changes neither the outcome nor the external calls of
initialization. -/
theorem connect_profile_precedence (cfg : AOServiceConfig)
    (g : Option GlobalAOConfig) (env : ExternalEnv) (g2 : GlobalAOConfig)
    (sg : Option Signer) (b : Bool) (t d : Option Int) (a : Option String) :
    ((resolveConnectArgs cfg g).MODE =
        specPreferInstanceField cfg.mode (g.bind fun c => c.AO_MODE) ∧
      (resolveConnectArgs cfg g).GATEWAY_URL =
        specPreferInstanceField cfg.gatewayUrl
          (g.bind fun c => c.AO_GATEWAY_URL) ∧
      (resolveConnectArgs cfg g).GRAPHQL_URL =
        specPreferInstanceField cfg.graphqlUrl
          (g.bind fun c => c.AO_GRAPHQL_URL) ∧
      (resolveConnectArgs cfg g).MU_URL =
        specPreferInstanceField cfg.muUrl (g.bind fun c => c.AO_MU_URL) ∧
      (resolveConnectArgs cfg g).CU_URL =
        specPreferInstanceField cfg.cuUrl (g.bind fun c => c.AO_CU_URL)) ∧
    ((initializeService env
        (some { g2 with AO_API_KEY := a, AO_DEFAULT_TIMEOUT := t })
        { signer := sg, initialized := b,
          config := { cfg with defaultTimeout := d } }).1 =
      (initializeService env (some g2)
        { signer := sg, initialized := b, config := cfg }).1 ∧
     (initializeService env
        (some { g2 with AO_API_KEY := a, AO_DEFAULT_TIMEOUT := t })
        { signer := sg, initialized := b,
          config := { cfg with defaultTimeout := d } }).2.2 =
      (initializeService env (some g2)
        { signer := sg, initialized := b, config := cfg }).2.2) := by
  refine ⟨⟨resolveField_eq_spec _ _, resolveField_eq_spec _ _,
    resolveField_eq_spec _ _, resolveField_eq_spec _ _,
    resolveField_eq_spec _ _⟩, ?_⟩
  have hra : resolveConnectArgs { cfg with defaultTimeout := d }
      (some { g2 with AO_API_KEY := a, AO_DEFAULT_TIMEOUT := t }) =
      resolveConnectArgs cfg (some g2) := rfl
  unfold initializeService
  simp only [hra]
  rcases hw : cfg.wallet with _ | w
  · by_cases hargs : (resolveConnectArgs cfg (some g2)).isEmpty = true
    · simp [hw, hargs]
    · rcases hc : env.connectResult (resolveConnectArgs cfg (some g2))
        with ce | cu <;> simp [hw, hargs, hc]
  · rcases hcs : env.createSignerResult w with ce | sg2
    · simp [hw, hcs]
    · by_cases hargs : (resolveConnectArgs cfg (some g2)).isEmpty = true
      · simp [hw, hcs, hargs]
      · rcases hc : env.connectResult (resolveConnectArgs cfg (some g2))
          with ce | cu <;> simp [hw, hcs, hargs, hc]

/-- C8: a send-message payload that fails the schema — in particular any
payload whose `process` member is missing — makes the action's pre-check
return `false`, and the pre-check invokes no Service Adapter operation;
moreover a missing `process` member always fails the schema. -/
theorem sendMessage_validate_rejects_bad_payload
    (svc : Option AOServiceState) (j : Json)
    (h : sendMessageSchemaValid j = false) :
    sendMessageValidate svc (some j) = (false, []) ∧
    (∀ ms : JsonObj, ms.find "process" = none →
      sendMessageSchemaValid (.obj ms) = false) := by
  constructor
  · unfold sendMessageValidate validateAction
    rcases svc with _ | s
    · rfl
    · by_cases hi : isInitialized s = true
      · simp [hi, h]
      · simp [hi]
  · intro ms hms
    simp [sendMessageSchemaValid, hms, isNonEmptyStringJson]

/-- C8 (witness): the theorem applied to an initialized service and the
concrete payload lacking `process` — the pre-check rejects it without
invoking the adapter. -/
theorem sendMessage_validate_rejects_bad_payload_witness :
    sendMessageValidate (some initState) (some missingProcessPayload) =
      (false, []) :=
  (sendMessage_validate_rejects_bad_payload (some initState)
    missingProcessPayload (by decide)).1

/-- C9: every one of the four actions' pre-checks returns `false` whenever
the AO service is unavailable or its lifecycle flag is not `Initialized`,
for every content — including schema-valid payloads — because availability
and initialization are checked before schema validation; and no Service
Adapter operation is invoked. -/
theorem validates_require_initialized_service
    (svc : Option AOServiceState) (content : Option Json)
    (h : serviceUnavailable svc = true) :
    spawnProcessValidate svc content = (false, []) ∧
    sendMessageValidate svc content = (false, []) ∧
    readResultValidate svc content = (false, []) ∧
    dryRunValidate svc content = (false, []) := by
  unfold spawnProcessValidate sendMessageValidate readResultValidate
    dryRunValidate validateAction
  rcases svc with _ | s
  · exact ⟨rfl, rfl, rfl, rfl⟩
  · simp only [serviceUnavailable, Bool.not_eq_true'] at h
    unfold isInitialized at h
    refine ⟨?_, ?_, ?_, ?_⟩ <;> simp [isInitialized, h]

/-- C9 (witness): the theorem applied to an uninitialized service and a
schema-valid send-message payload — all four pre-checks reject. -/
theorem validates_require_initialized_service_witness :
    serviceUnavailable (some walletState) = true ∧
    sendMessageValidate (some walletState) (some validSendPayload) =
      (false, []) ∧
    sendMessageSchemaValid validSendPayload = true :=
  ⟨rfl,
   (validates_require_initialized_service (some walletState)
     (some validSendPayload) rfl).2.1,
   by decide⟩

end AOPlugin
